import Mathlib

/-!  Verification of the Listing Lens job lifecycle and session-staging
subsystem.

The definitions below are shallow embeddings of the serverless handlers in
`netlify/functions/` (`generate-report.js`, `generate-report-background.js`,
`report-status.js`) and of the Upstash-backed rate limiter and upload handler.
JavaScript strings are modelled as Lean `String`s (or `List Char` where
index arithmetic is needed), machine numbers as `Nat`/`Int`, fallible store
reads as `Option`, and each handler as a pure function from its request plus
the answers of the external collaborators (blob store, payment service,
generation model, clock, randomness) to its response plus its store effects.
-/

namespace LL

/-- JS falsy test for an optional string (covers `undefined` and `""`). -/
def strFalsy (o : Option String) : Bool := o.getD "" == ""

/-- `String.prototype.indexOf`, on char lists: the first index at which
`pat` occurs in the scanned list, `none` when it does not occur (JS `-1`).
The running index `i` is the absolute position of the head of the list. -/
def idxAux (pat : List Char) : List Char → Nat → Option Nat
  | [], i => if pat.isPrefixOf ([] : List Char) then some i else none
  | c :: t, i => if pat.isPrefixOf (c :: t) then some i else idxAux pat t (i + 1)

/-- `s.indexOf(pat)` over char lists. -/
def listIndexOf (s pat : List Char) : Option Nat := idxAux pat s 0

/-- Scanner for `String.prototype.lastIndexOf`: keeps the last position at
which `pat` occurs. -/
def lastIdxAux (pat : List Char) : List Char → Nat → Option Nat → Option Nat
  | [], i, acc => if pat.isPrefixOf ([] : List Char) then some i else acc
  | c :: t, i, acc =>
      lastIdxAux pat t (i + 1) (if pat.isPrefixOf (c :: t) then some i else acc)

/-- `s.lastIndexOf(pat)` over char lists. -/
def listLastIndexOf (s pat : List Char) : Option Nat := lastIdxAux pat s 0 none

/-- `String.prototype.substring(a, b)` over char lists: the two indices are
clamped to the list and exchanged when `a > b` (JS substring semantics). -/
def jsSubstringL (s : List Char) (a b : Nat) : List Char :=
  (s.drop (min a b)).take (max a b - min a b)

/-- `String.prototype.substring(a, b)`. -/
def jsSubstring (s : String) (a b : Nat) : String :=
  (jsSubstringL s.toList a b).asString

/-- Whitespace for the model of `String.prototype.trim` (the common ASCII
whitespace characters; the source only ever trims model output whose edges
are spaces and newlines). -/
def isJsWs (c : Char) : Bool :=
  c == ' ' || c == '\t' || c == '\n' || c == '\r' || c == '\x0b' || c == '\x0c'

/-- `String.prototype.trim` over char lists. -/
def jsTrimL (s : List Char) : List Char :=
  ((s.dropWhile isJsWs).reverse.dropWhile isJsWs).reverse

/-- Drops one leading newline, used for the `\n?` part of the fence regexes. -/
def fenceDropNl : List Char → List Char
  | '\n' :: t => t
  | s => s

/-- Global replace of the regex `tok\n?` by the empty string, driven by a
fuel counter so that the recursion is structural (the kernel can then
evaluate it): the scan moves left to right, consuming the token (and one
following newline, if present) at each match and otherwise keeping the
character.  Each step shortens the list by at least one character, so fuel
equal to the list's length (as `stripTok` supplies) never runs out. -/
def stripTokF (tok : List Char) : Nat → List Char → List Char
  | 0, s => s
  | fuel + 1, s =>
    if tok ≠ [] ∧ tok.isPrefixOf s then
      stripTokF tok fuel (fenceDropNl (s.drop tok.length))
    else
      match s with
      | [] => []
      | c :: t => c :: stripTokF tok fuel t

/-- Models `.replace(/tok\n?/g, '')`, as used with `tok` being ` ```html `
and ` ``` ` by the worker. -/
def stripTok (tok : List Char) (s : List Char) : List Char :=
  stripTokF tok s.length s

/-- The fence-stripping and trimming step of the worker:
`reportHtml.replace(/```html\n?/g, '').replace(/```\n?/g, '').trim()`. -/
def stripFences (s : String) : String :=
  (jsTrimL (stripTok ("```".toList) (stripTok ("```html".toList) s.toList))).asString

/-- One block of the generation collaborator's `response.content`. -/
structure ContentBlock where
  type : String
  text : String
deriving DecidableEq, Repr

/-- `response.content.filter(b => b.type === 'text').map(b => b.text).join('')`. -/
def joinTextBlocks (content : List ContentBlock) : String :=
  String.join ((content.filter (fun b => b.type == "text")).map (fun b => b.text))

/-- The document-start position (lines 175–177): the first occurrence of
`<!DOCTYPE html>`, or the first occurrence of `<html` when the former is
absent. -/
def docStartIdx (s : String) : Option Nat :=
  match listIndexOf s.toList ("<!DOCTYPE html>".toList) with
  | some i => some i
  | none => listIndexOf s.toList ("<html".toList)

/-- The document-end position (line 178): the last occurrence of `</html>`. -/
def docEndIdx (s : String) : Option Nat :=
  listLastIndexOf s.toList ("</html>".toList)

/-- Output normalization of the worker (generate-report-background.js, lines
167–181): strip code fences and trim, find the document start and the last
`</html>`, and when both are found cut with JS `substring` semantics
(`docStart` to `docEnd + 7`, the bounds exchanged when out of order). -/
def normalizeReport (raw : String) : String :=
  let t := stripFences raw
  match docStartIdx t, docEndIdx t with
  | some a, some b => (jsSubstringL t.toList a (b + 7)).asString
  | _, _ => t

/-- What the spec's sentence describes, word for word: after fence stripping,
"extract the substring between the first document-start marker and the last
document-end marker (if both found)" — the characters from the start marker's
position through the end of the end marker, an empty extraction when those
positions are out of order; the stripped text unchanged otherwise. -/
def specNormalizeReport (raw : String) : String :=
  let t := stripFences raw
  match docStartIdx t, docEndIdx t with
  | some a, some b => ((t.toList.drop a).take (b + 7 - a)).asString
  | _, _ => t

/-! ## Payment verification (generate-report-background.js, lines 35–60) -/

/-- A Stripe payment intent as the worker reads it: `status`, `amount`,
`currency`, and the optional `metadata` object (an association list of
string fields; the worker only ever reads and writes `report_generated`). -/
structure Intent where
  status : String
  amount : Int
  currency : String
  metadata : Option (List (String × String))
deriving DecidableEq, Repr

/-- Field lookup on an optional metadata object: `undefined` when the object
itself is absent (so `intent.metadata && intent.metadata.report_generated`
is falsy), else the field's value if present. -/
def metaField (m : Option (List (String × String))) (k : String) : Option String :=
  match m with
  | none => none
  | some l => (l.find? (fun p => p.1 == k)).map (fun p => p.2)

/-- The prior-use marker: `intent.metadata && intent.metadata.report_generated === 'true'`. -/
def markerSet (i : Intent) : Bool :=
  metaField i.metadata "report_generated" == some "true"

/-- `Object.assign({}, m, {k: v})`, lookup-faithfully: the written key maps
to `v`, every other key keeps its value. -/
def metaAssign (m : List (String × String)) (k v : String) : List (String × String) :=
  (k, v) :: m.filter (fun p => p.1 != k)

/-- The update the worker requests after accepting a payment:
`metadata: Object.assign({}, intent.metadata, { report_generated: 'true' })`. -/
def markUsed (i : Intent) : Intent :=
  { i with metadata := some (metaAssign (i.metadata.getD []) "report_generated" "true") }

/-- What `verifyPayment` resolves to. -/
structure PayResult where
  valid : Bool
  reason : Option String
deriving DecidableEq, Repr

/-- `verifyPayment` (generate-report-background.js, lines 35–60).  The Stripe
collaborator is a map from intent id to intent; a `none` retrieval models the
`retrieve` call rejecting, whose message the `catch` returns (representative
text).  The returned map is the collaborator's state after the call: the
accepted intent carries the prior-use marker (the `update` call; modelled as
succeeding).  `pid` is `none` or `some ""` when `paymentIntentId` is falsy. -/
def verifyPayment (betaMode : Bool) (stripe : String → Option Intent)
    (pid : Option String) : PayResult × (String → Option Intent) :=
  if betaMode then (⟨true, none⟩, stripe)
  else if strFalsy pid then (⟨false, some "No payment intent ID"⟩, stripe)
  else
    match stripe (pid.getD "") with
    | none => (⟨false, some ("No such payment_intent: " ++ pid.getD "")⟩, stripe)
    | some intent =>
      if intent.status != "succeeded" then
        (⟨false, some ("Payment status: " ++ intent.status)⟩, stripe)
      else if !([200, 500, 1000].contains intent.amount) then
        (⟨false, some ("Invalid amount: " ++ toString intent.amount)⟩, stripe)
      else if intent.currency != "aud" then
        (⟨false, some "Wrong currency"⟩, stripe)
      else if markerSet intent then
        (⟨false, some "Payment already used"⟩, stripe)
      else
        (⟨true, none⟩,
         fun k => if k == pid.getD "" then some (markUsed intent) else stripe k)

/-! ## Job records and the blob store keys -/

/-- One `setJSON('job/<id>', ...)` payload.  Every write replaces the whole
record, so each shape carries only the fields the source writes there. -/
structure JobRecord where
  status : String
  queuedAt : Option Nat := none
  startedAt : Option Nat := none
  completedAt : Option Nat := none
  error : Option String := none
  reportId : Option String := none
  html : Option String := none
deriving DecidableEq, Repr

/-- The worker's first write: `{ status: 'processing', startedAt }`. -/
def procRec (t : Nat) : JobRecord := { status := "processing", startedAt := some t }

/-- A terminal error write: `{ status: 'error', error: msg }`. -/
def errRec (msg : String) : JobRecord := { status := "error", error := some msg }

/-- `` `${sessionId}/screenshot-${i}` ``. -/
def shotKey (sessionId : String) (i : Nat) : String :=
  sessionId ++ "/screenshot-" ++ toString i

/-- `` `${sessionId}/meta` ``. -/
def metaKey (sessionId : String) : String := sessionId ++ "/meta"

/-- The keys the worker's cleanup step deletes (generate-report-background.js,
lines 191–197): every screenshot key of the session, then the metadata key. -/
def cleanupKeys (sessionId : String) (n : Nat) : List String :=
  (List.range n).map (shotKey sessionId) ++ [metaKey sessionId]

/-! ## The Report Worker (generate-report-background.js, lines 66–209) -/

/-- Session metadata, `{ category, screenshotCount }` as the worker reads it. -/
structure SessionMeta where
  category : String
  screenshotCount : Nat
deriving DecidableEq, Repr

/-- One staged screenshot as the worker assembles it. -/
structure Screenshot where
  base64 : String
  mimeType : String
deriving DecidableEq, Repr

def VALID_CATEGORIES : List String := ["vehicle", "property", "electronics", "other"]

/-- `(blobMeta && blobMeta.metadata && blobMeta.metadata.mimeType) || 'image/jpeg'`:
the recorded content type when the chain is truthy, the JPEG default
otherwise. -/
def mimeOrJpeg (m : Option String) : String :=
  match m with
  | some s => if s == "" then "image/jpeg" else s
  | none => "image/jpeg"

/-- The screenshot-retrieval loop (lines 108–121): each index is fetched
independently; `getShot i = none` models both a `null` blob and a throwing
`get` (the `catch` only warns), and such an index is skipped, not fatal.
The blob's bytes are modelled by their base64 string. -/
def fetchScreenshots (getShot : Nat → Option (String × Option String)) (n : Nat) :
    List Screenshot :=
  (List.range n).filterMap fun i =>
    (getShot i).map fun p => ⟨p.1, mimeOrJpeg p.2⟩

/-- JS truthiness collapse for `loadPrompt`'s result: `null` and `''` are
both falsy (`if (!systemPrompt) ...`). -/
def jsStrOpt (o : Option String) : Option String :=
  match o with
  | some s => if s == "" then none else some s
  | none => none

/-- Prompt selection (lines 130–140): the category-specific template if it
loads and is non-empty, else the universal fallback; `none` when even the
fallback is missing. -/
def selectPrompt (prompts : String → Option String) (category : String) : Option String :=
  let sp :=
    if category == "property" then jsStrOpt (prompts "combined-aus-property-v3.1.md")
    else if category == "vehicle" then jsStrOpt (prompts "combined-aus-vehicle-v3.1.md")
    else if category == "electronics" then jsStrOpt (prompts "combined-aus-electronics-v3.1.md")
    else if category == "other" then jsStrOpt (prompts "combined-aus-general-v3.1.md")
    else none
  match sp with
  | some p => some p
  | none => jsStrOpt (prompts "fast-universal-v1.md")

/-- `String.prototype.toUpperCase` per character (ASCII, which is all base-36
digits produce). -/
def jsUpperChar (c : Char) : Char :=
  if 97 ≤ c.toNat ∧ c.toNat ≤ 122 then Char.ofNat (c.toNat - 32) else c

/-- `'LL-' + rand.substring(2, 7).toUpperCase()` where `rand` is the string
`Math.random().toString(36)` produced (line 142). -/
def mkReportId (rand : String) : String :=
  "LL-" ++ (((rand.toList.drop 2).take 5).map jsUpperChar).asString

/-- The suffix appended to the system prompt (line 145). -/
def promptTail (reportId today : String) (k : Nat) (category : String) : String :=
  "\n\n---\nReport ID: " ++ reportId ++ "\nDate: " ++ today ++
  "\nScreenshots: " ++ toString k ++ "\nCategory: " ++ category ++
  "\n\nIdentify country/jurisdiction from screenshots and adapt all costs, laws, and buyer rights accordingly.\n\nOutput ONLY valid HTML starting with <!DOCTYPE html>. No markdown, no code fences."

/-- Everything the worker's environment answers: the payment bypass flag and
Stripe state, the store's answers for this session's keys, the prompt files,
the generation collaborator's `response.content`, the random string for the
report id, the formatted date, and the clock readings taken at the
`processing` and `complete` writes. -/
structure WorkerEnv where
  betaMode : Bool
  stripe : String → Option Intent
  meta : Option SessionMeta
  getShot : Nat → Option (String × Option String)
  prompts : String → Option String
  llm : List ContentBlock
  rand : String
  today : String
  tStart : Nat
  tComplete : Nat

/-- What one worker run did: the successive `setJSON('job/...', ...)`
payloads in order, the generation call it made (system prompt and the
screenshots handed over), if any, and the store keys its cleanup deleted. -/
structure WorkerOut where
  writes : List JobRecord
  llmCall : Option (String × List Screenshot)
  deletes : List String
deriving DecidableEq, Repr

/-- The background worker (generate-report-background.js, lines 66–209),
after body parsing: a falsy `jobId` or `sessionId` returns without touching
the store; otherwise the job is marked `processing`, and the run proceeds to
payment verification, session load, category check, screenshot retrieval,
prompt selection, generation, the `complete` write and the cleanup, each
failure writing its terminal `error` record instead. -/
def runWorker (env : WorkerEnv) (jobId sessionId : String) (pid : Option String) :
    WorkerOut :=
  if jobId == "" || sessionId == "" then ⟨[], none, []⟩
  else
    let w0 := [procRec env.tStart]
    let pay := (verifyPayment env.betaMode env.stripe pid).1
    if !pay.valid then
      ⟨w0 ++ [errRec ("Payment failed: " ++ pay.reason.getD "")], none, []⟩
    else
      match env.meta with
      | none => ⟨w0 ++ [errRec "Session expired — please re-upload."], none, []⟩
      | some meta =>
        if !(VALID_CATEGORIES.contains meta.category) then
          ⟨w0 ++ [errRec "Invalid category"], none, []⟩
        else
          let shots := fetchScreenshots env.getShot meta.screenshotCount
          if shots.isEmpty then
            ⟨w0 ++ [errRec "Screenshots expired — please re-upload."], none, []⟩
          else
            match selectPrompt env.prompts meta.category with
            | none => ⟨w0 ++ [errRec "Prompt configuration error"], none, []⟩
            | some basePrompt =>
              let reportId := mkReportId env.rand
              let sysPrompt :=
                basePrompt ++ promptTail reportId env.today shots.length meta.category
              let html := normalizeReport (joinTextBlocks env.llm)
              ⟨w0 ++ [{ status := "complete", reportId := some reportId,
                        html := some html, completedAt := some env.tComplete }],
               some (sysPrompt, shots),
               cleanupKeys sessionId meta.screenshotCount⟩

/-! ## The Dispatcher (generate-report.js, lines 21–98) -/

/-- The parsed POST body, `{ sessionId, paymentIntentId }`. -/
structure ReqBody where
  sessionId : Option String
  paymentIntentId : Option String
deriving DecidableEq, Repr

/-- The session metadata fields the dispatcher reads: only `expiresAt`.
`none` models an absent field (then `new Date(undefined) < new Date()` is
false) or an unparseable date, `some t` a date that parses to time `t`. -/
structure DispatchMeta where
  expiresAt : Option Nat
deriving DecidableEq, Repr

/-- `new Date(expiresAt) < new Date(now)`: false when `expiresAt` is absent
(an Invalid Date compares false). -/
def jsDateLt (expiresAt : Option Nat) (now : Nat) : Bool :=
  match expiresAt with
  | some t => decide (t < now)
  | none => false

/-- The response bodies the dispatcher serializes. -/
inductive DispatchBody
  | empty
  | errBody (error : String) (message : Option String)
  | accepted (jobId : String) (status : String)
deriving DecidableEq, Repr

/-- The background trigger's POST body, `{ jobId, sessionId, paymentIntentId }`. -/
structure BgPayload where
  jobId : String
  sessionId : String
  paymentIntentId : Option String
deriving DecidableEq, Repr

/-- A dispatcher run: the HTTP response, the job record it wrote (key and
payload), whether it deleted the session metadata, and the background
invocation it fired.  The source fires that `fetch` without awaiting it
(`// Fire background function — do NOT await`). -/
structure DispatchOut where
  statusCode : Nat
  body : DispatchBody
  jobWrite : Option (String × JobRecord)
  metaDeleted : Bool
  bgCall : Option BgPayload
deriving DecidableEq, Repr

/-- The dispatcher's environment: the store's answer for
`` `${sessionId}/meta` `` (a throwing `get` is collapsed to `none` by the
source's own `catch`), the clock reading used by the expiry comparison, the
clock reading stored as `queuedAt`, and the UUID the id mint draws. -/
structure DispatchEnv where
  meta : Option DispatchMeta
  now : Nat
  tQueued : Nat
  uuid : String

/-- `crypto.randomUUID()` with every dash removed (a global regex replace by
the empty string), then `.substring(0, 16)`. -/
def mintId (uuid : String) : String :=
  ((uuid.toList.filter (fun c => c != '-')).take 16).asString

/-- The dispatcher (generate-report.js): OPTIONS and non-POST short-circuits,
`sessionId` presence check, session lookup, manual expiry check (410 and
metadata delete when expired), then the `queued` job write, the un-awaited
background trigger and the 202 response.  `body = none` models a request
body `JSON.parse` throws on (caught as the 500 branch). -/
def dispatchHandler (env : DispatchEnv) (httpMethod : String) (body : Option ReqBody) :
    DispatchOut :=
  if httpMethod == "OPTIONS" then ⟨200, .empty, none, false, none⟩
  else if httpMethod != "POST" then
    ⟨405, .errBody "Method not allowed" none, none, false, none⟩
  else
    match body with
    | none =>
      ⟨500, .errBody "Failed to start report generation" (some "invalid JSON"),
       none, false, none⟩
    | some b =>
      if strFalsy b.sessionId then
        ⟨400, .errBody "sessionId required" none, none, false, none⟩
      else
        match env.meta with
        | none =>
          ⟨410, .errBody "Session expired"
             (some "Your screenshots have been automatically deleted (15-minute limit). Please upload again."),
           none, false, none⟩
        | some m =>
          if jsDateLt m.expiresAt env.now then
            ⟨410, .errBody "Session expired"
               (some "Your session has expired. Please upload again."),
             none, true, none⟩
          else
            ⟨202, .accepted (mintId env.uuid) "processing",
             some ("job/" ++ mintId env.uuid,
                   { status := "queued", queuedAt := some env.tQueued }),
             false,
             some ⟨mintId env.uuid, b.sessionId.getD "", b.paymentIntentId⟩⟩

/-! ## The status-polling endpoint (report-status.js) -/

/-- The response bodies the status endpoint serializes: the CORS preflight's
empty body, the 400 error, or a job-shaped JSON object (either the record
read or the synthesized `{status: 'processing'}`). -/
inductive StatusBody
  | empty
  | errBody (error : String)
  | jobBody (j : JobRecord)
deriving DecidableEq, Repr

/-- A status-endpoint run: the response and the job key it deleted, if any
(its only store effect). -/
structure StatusOut where
  statusCode : Nat
  body : StatusBody
  deletedKey : Option String
deriving DecidableEq, Repr

/-- The polling endpoint (report-status.js, lines 15–59): OPTIONS
short-circuit, `jobId` presence check, job lookup (a throwing `get` is the
source's own `catch`, collapsed into `none`), the synthesized `processing`
answer when no record exists, and the delete-after-read of terminal
records. -/
def reportStatusHandler (jobs : String → Option JobRecord) (httpMethod : String)
    (jobId : Option String) : StatusOut :=
  if httpMethod == "OPTIONS" then ⟨200, .empty, none⟩
  else if strFalsy jobId then ⟨400, .errBody "jobId required", none⟩
  else
    match jobs ("job/" ++ jobId.getD "") with
    | none => ⟨200, .jobBody { status := "processing" }, none⟩
    | some job =>
      ⟨200, .jobBody job,
       if job.status == "complete" || job.status == "error" then
         some ("job/" ++ jobId.getD "")
       else none⟩

/-! ## The rate limiter (unnamed store module, `checkRateLimit`) -/

def RATE_LIMIT_WINDOW_SECONDS : Nat := 60 * 60

def RATE_LIMIT_MAX_REQUESTS : Nat := 100

/-- The per-identity counter's state in Redis: its current value (0 for an
absent key, as `INCR` treats it) and its pending expiry, if one was set. -/
structure RLState where
  count : Nat
  ttl : Option Nat
deriving DecidableEq, Repr

/-- What `checkRateLimit` resolves to. -/
structure RLResult where
  allowed : Bool
  count : Nat
  remaining : Int
deriving DecidableEq, Repr

/-- `checkRateLimit` (store module, lines 339–352): an atomic `INCR`, the
expiry set only by the caller that observes `count === 1`,
`allowed = count <= RATE_LIMIT_MAX_REQUESTS` and
`remaining = Math.max(0, RATE_LIMIT_MAX_REQUESTS - count)`. -/
def checkRateLimit (st : RLState) : RLResult × RLState :=
  let c := st.count + 1
  ({ allowed := decide (c ≤ RATE_LIMIT_MAX_REQUESTS),
     count := c,
     remaining := max 0 ((RATE_LIMIT_MAX_REQUESTS : Int) - (c : Int)) },
   { count := c,
     ttl := if c == 1 then some RATE_LIMIT_WINDOW_SECONDS else st.ttl })

/-- `n` sequential `checkRateLimit` calls against the same identity. -/
def rlIter : Nat → RLState → RLState
  | 0, st => st
  | n + 1, st => rlIter n (checkRateLimit st).2

/-! ## Character classes and id shapes -/

/-- A lowercase hexadecimal digit (`0`–`9`, `a`–`f`). -/
def isHexLower (c : Char) : Bool :=
  decide ((48 ≤ c.toNat ∧ c.toNat ≤ 57) ∨ (97 ≤ c.toNat ∧ c.toNat ≤ 102))

/-- A base-36 digit as `Number.prototype.toString(36)` emits (`0`–`9`, `a`–`z`). -/
def isB36Digit (c : Char) : Bool :=
  decide ((48 ≤ c.toNat ∧ c.toNat ≤ 57) ∨ (97 ≤ c.toNat ∧ c.toNat ≤ 122))

/-- A character of the class `[A-Z0-9]` from the spec's report-id pattern. -/
def isUpperAlnum (c : Char) : Bool :=
  decide ((48 ≤ c.toNat ∧ c.toNat ≤ 57) ∨ (65 ≤ c.toNat ∧ c.toNat ≤ 90))

/-- The shape of `Math.random().toString(36)` for a double in `[0, 1)`:
either the single digit `0` (for zero), or `0.` followed by a non-empty run
of base-36 digits.  The run can be short: `(0.25).toString(36)` is `"0.9"`. -/
def isRandom36 (s : String) : Bool :=
  match s.toList with
  | ['0'] => true
  | '0' :: '.' :: ds => decide (ds ≠ []) && ds.all isB36Digit
  | _ => false

/-- Full match against the spec's report-id pattern `LL-[A-Z0-9]{5}`. -/
def specLL5 (r : String) : Bool :=
  match r.toList with
  | 'L' :: 'L' :: '-' :: rest => (rest.length == 5) && rest.all isUpperAlnum
  | _ => false

/-- The canonical text of `crypto.randomUUID()`: five lowercase-hex groups of
lengths 8, 4, 4, 4 and 12 joined by dashes. -/
def IsCanonicalUUID (s : String) : Prop :=
  ∃ a b c d e : List Char,
    s.toList = a ++ '-' :: (b ++ '-' :: (c ++ '-' :: (d ++ '-' :: e)))
    ∧ a.length = 8 ∧ b.length = 4 ∧ c.length = 4 ∧ d.length = 4 ∧ e.length = 12
    ∧ (a ++ b ++ c ++ d ++ e).all isHexLower = true

/-- The three immutable checks `verifyPayment` applies before the prior-use
marker: status `succeeded`, amount in `{200, 500, 1000}`, currency `aud`. -/
def passesCoreChecks (i : Intent) : Bool :=
  i.status == "succeeded" && [200, 500, 1000].contains i.amount && i.currency == "aud"

/-! ## Concrete demonstration inputs -/

def demoUuid : String := "123e4567-e89b-42d3-a456-426614174000"

def demoUuid2 : String := "00112233-4455-4677-8899-aabbccddeeff"

/-- `mintId demoUuid`: the dashless first 16 characters. -/
def demoSid : String := "123e4567e89b42d3"

/-- An accepted-then-marked intent: `succeeded`, 500, `aud`, already used. -/
def usedIntent : Intent := ⟨"succeeded", 500, "aud", some [("report_generated", "true")]⟩

/-- A fresh valid intent. -/
def freshIntent : Intent := ⟨"succeeded", 500, "aud", none⟩

/-- An intent whose payment failed and that also carries the prior-use
marker (as a Stripe record may after external updates or a later status
change). -/
def cexIntent : Intent := ⟨"requires_payment_method", 500, "aud", some [("report_generated", "true")]⟩

def demoStripe : String → Option Intent := fun k =>
  if k == "pi_used" then some usedIntent
  else if k == "pi_fresh" then some freshIntent
  else if k == "pi_cex" then some cexIntent
  else none

/-- A worker environment on the success path (payment bypassed, one of two
screenshots still present, vehicle prompt available, well-formed output). -/
def demoEnv : WorkerEnv :=
  { betaMode := true
    stripe := fun _ => none
    meta := some ⟨"vehicle", 2⟩
    getShot := fun i => if i == 0 then some ("imgdata", some "image/png") else none
    prompts := fun _ => some "PROMPT"
    llm := [⟨"text", "<!DOCTYPE html>ok</html>"⟩]
    rand := "0.k5row3"
    today := "11 Oct 2026"
    tStart := 10
    tComplete := 20 }

/-- The success environment with real payment checking against `demoStripe`. -/
def payEnv : WorkerEnv := { demoEnv with betaMode := false, stripe := demoStripe }

/-- The success environment whose random draw has a one-digit base-36
fraction: `(0.25).toString(36)` is `"0.9"`. -/
def shortRandEnv : WorkerEnv := { demoEnv with rand := "0.9" }

/-- A dispatch environment whose session exists and records no expiry. -/
def demoDispatchEnv : DispatchEnv := ⟨some ⟨none⟩, 5, 6, demoUuid⟩

/-- A dispatch environment whose session exists but has passed its recorded
expiry (`expiresAt = 0`, now `1`). -/
def expiredDispatchEnv : DispatchEnv := ⟨some ⟨some 0⟩, 1, 2, demoUuid⟩

def demoBody : ReqBody := ⟨some demoSid, some "pi_fresh"⟩

def demoJobs : String → Option JobRecord := fun k =>
  if k == "job/j1" then some (errRec "boom") else none

/-! ## Helper lemmas -/

theorem charToNatOfNat (n : Nat) (h : n.isValidChar) : (Char.ofNat n).toNat = n := by
  simp only [Char.ofNat, h, dite_true, Char.ofNatAux, Char.toNat, UInt32.toNat]
  rfl

theorem isUpperAlnum_jsUpperChar (c : Char) (h : isB36Digit c = true) :
    isUpperAlnum (jsUpperChar c) = true := by
  have hc := of_decide_eq_true h
  unfold jsUpperChar
  by_cases hl : 97 ≤ c.toNat ∧ c.toNat ≤ 122
  · rw [if_pos hl]
    have hv : (c.toNat - 32).isValidChar := Or.inl (by omega)
    unfold isUpperAlnum
    rw [charToNatOfNat _ hv]
    exact decide_eq_true (Or.inr (by omega))
  · rw [if_neg hl]
    exact decide_eq_true (Or.inl (by omega))

theorem hexLower_ne_slash {c : Char} (h : isHexLower c = true) : c ≠ '/' := by
  intro hc
  subst hc
  exact absurd h (by decide)

theorem hexLower_ne_dash {c : Char} (h : isHexLower c = true) : (c != '-') = true := by
  have hp := of_decide_eq_true h
  refine bne_iff_ne.mpr fun hc => ?_
  subst hc
  revert hp
  decide

/-- A `job/`-prefixed key never coincides with a key that starts with a
16-character lowercase-hex session id: the two differ at index 3, where the
former holds `/` and the latter a hex digit. -/
theorem jobKey_ne_sessionPrefixed (s : String) (h16 : s.toList.length = 16)
    (hhex : s.toList.all isHexLower = true) (j : String) (r : List Char)
    (k : String) (hk : k.toList = s.toList ++ r) : ("job/" ++ j) ≠ k := by
  intro he
  have hd : ("job/" ++ j).toList = k.toList := congrArg String.toList he
  rw [String.toList] at hd
  rw [String.data_append] at hd
  have hleft : (("job/").data ++ j.data)[3]? = some '/' := by
    show ((['j', 'o', 'b', '/'] : List Char) ++ j.data)[3]? = some '/'
    simp
  rw [hd] at hleft
  have hk3 : 3 < s.toList.length := by omega
  have hright : k.toList[3]? = s.toList[3]? := by
    rw [hk]
    exact List.getElem?_append_left hk3
  have hsome : s.toList[3]? = some (s.toList[3]) := List.getElem?_eq_getElem hk3
  have hmem : s.toList[3] ∈ s.toList := s.toList.getElem_mem hk3
  have hhex3 : isHexLower (s.toList[3]) = true := List.all_eq_true.mp hhex _ hmem
  have : String.toList k = String.data k := rfl
  rw [this] at hleft
  rw [← this, hright, hsome] at hleft
  exact hexLower_ne_slash hhex3 (Option.some.inj hleft)

theorem hexList_filter_ne_dash (l : List Char) (h : l.all isHexLower = true) :
    l.filter (fun c => c != '-') = l :=
  List.filter_eq_self.mpr fun c hc => hexLower_ne_dash (List.all_eq_true.mp h c hc)

/-- The dashless form of a canonical UUID: the 32 hex digits in order. -/
theorem mintId_spec (u : String) (h : IsCanonicalUUID u) :
    (mintId u).toList.length = 16 ∧ (mintId u).toList.all isHexLower = true := by
  obtain ⟨a, b, c, d, e, hu, ha, hb, hc, hd, he, hhex⟩ := h
  have hsplit : ∀ x ∈ a ++ b ++ c ++ d ++ e, isHexLower x = true :=
    List.all_eq_true.mp hhex
  have hfil : u.toList.filter (fun x => x != '-') = a ++ (b ++ (c ++ (d ++ e))) := by
    rw [hu]
    simp only [List.filter_append, List.filter_cons]
    have hdash : (('-' : Char) != '-') = false := by decide
    rw [hdash]
    simp only [Bool.false_eq_true, if_false]
    rw [hexList_filter_ne_dash a, hexList_filter_ne_dash b, hexList_filter_ne_dash c,
        hexList_filter_ne_dash d, hexList_filter_ne_dash e]
    · exact List.all_eq_true.mpr fun x hx =>
        hsplit x (by simp at hx ⊢; tauto)
    · exact List.all_eq_true.mpr fun x hx =>
        hsplit x (by simp at hx ⊢; tauto)
    · exact List.all_eq_true.mpr fun x hx =>
        hsplit x (by simp at hx ⊢; tauto)
    · exact List.all_eq_true.mpr fun x hx =>
        hsplit x (by simp at hx ⊢; tauto)
    · exact List.all_eq_true.mpr fun x hx =>
        hsplit x (by simp at hx ⊢; tauto)
  have hlen : (u.toList.filter (fun x => x != '-')).length = 32 := by
    rw [hfil]
    simp [ha, hb, hc, hd, he]
  constructor
  · show ((u.toList.filter (fun x => x != '-')).take 16).length = 16
    rw [List.length_take, hlen]
    omega
  · show ((u.toList.filter (fun x => x != '-')).take 16).all isHexLower = true
    refine List.all_eq_true.mpr fun x hx => ?_
    have hx2 : x ∈ u.toList.filter (fun y => y != '-') := List.take_subset _ _ hx
    rw [hfil] at hx2
    refine hsplit x ?_
    simp at hx2 ⊢
    tauto

/-- The worker either deletes nothing or deletes exactly the session's
screenshot keys followed by its metadata key. -/
theorem runWorker_deletes_shape (env : WorkerEnv) (j s : String) (pid : Option String) :
    (runWorker env j s pid).deletes = [] ∨
      ∃ n, (runWorker env j s pid).deletes = cleanupKeys s n := by
  simp only [runWorker]
  repeat' split
  all_goals first
    | exact Or.inl rfl
    | exact Or.inr ⟨_, rfl⟩

theorem jobKey_ne_shotKey (s : String) (h16 : s.toList.length = 16)
    (hhex : s.toList.all isHexLower = true) (j : String) (i : Nat) :
    ("job/" ++ j) ≠ shotKey s i :=
  jobKey_ne_sessionPrefixed s h16 hhex j ("/screenshot-".toList ++ (toString i).toList) _
    (by show ((s ++ "/screenshot-") ++ toString i).data = s.data ++ _
        rw [String.data_append, String.data_append, List.append_assoc]
        rfl)

theorem jobKey_ne_metaKey (s : String) (h16 : s.toList.length = 16)
    (hhex : s.toList.all isHexLower = true) (j : String) :
    ("job/" ++ j) ≠ metaKey s :=
  jobKey_ne_sessionPrefixed s h16 hhex j ("/meta".toList) _
    (by show (s ++ "/meta").data = s.data ++ _
        rw [String.data_append]
        rfl)

theorem jobKey_not_in_cleanup (s : String) (h16 : s.toList.length = 16)
    (hhex : s.toList.all isHexLower = true) (j : String) (n : Nat) :
    ("job/" ++ j) ∉ cleanupKeys s n := by
  intro hmem
  unfold cleanupKeys at hmem
  rcases List.mem_append.mp hmem with h | h
  · obtain ⟨i, _, hi⟩ := List.mem_map.mp h
    exact jobKey_ne_shotKey s h16 hhex j i hi.symm
  · exact jobKey_ne_metaKey s h16 hhex j (List.mem_singleton.mp h)

/-! ## The claims -/

/-- C2: for every jobId with no job record in the store, the status-polling
endpoint answers 200 with the synthesized `{status: 'processing'}` body and
performs no delete — "not found" is never surfaced as a distinct state. -/
theorem c2_missing_job_reads_processing (jobs : String → Option JobRecord)
    (method jid : String) (hm : method ≠ "OPTIONS") (hj : jid ≠ "")
    (habs : jobs ("job/" ++ jid) = none) :
    reportStatusHandler jobs method (some jid) =
      ⟨200, .jobBody { status := "processing" }, none⟩ := by
  have h1 : (method == "OPTIONS") = false := by simp [hm]
  have h2 : strFalsy (some jid) = false := by simp [strFalsy, hj]
  simp [reportStatusHandler, h1, h2, habs]

/-- Witness for C2 at the empty store and jobId `abc`. -/
theorem c2_missing_job_reads_processing_witness :
    reportStatusHandler (fun _ => none) "GET" (some "abc") =
      ⟨200, .jobBody { status := "processing" }, none⟩ :=
  c2_missing_job_reads_processing (fun _ => none) "GET" "abc" (by decide) (by decide) rfl

/-- C3: reading an existing job record with terminal status (`complete` or
`error`) makes the status endpoint delete the job key and still return the
record it read; a `queued`/`processing` record is returned with no store
change; and the Report Worker never deletes its own `job/`-prefixed record —
its cleanup deletes only the session's screenshot keys and metadata key. -/
theorem c3_terminal_cleanup_ownership
    (jobs : String → Option JobRecord) (method jid : String) (job : JobRecord)
    (env : WorkerEnv) (j s : String) (pid : Option String)
    (hm : method ≠ "OPTIONS") (hj : jid ≠ "")
    (hfound : jobs ("job/" ++ jid) = some job)
    (h16 : s.toList.length = 16) (hhex : s.toList.all isHexLower = true) :
    (job.status = "complete" ∨ job.status = "error" →
       reportStatusHandler jobs method (some jid) =
         ⟨200, .jobBody job, some ("job/" ++ jid)⟩)
    ∧ (job.status = "queued" ∨ job.status = "processing" →
       reportStatusHandler jobs method (some jid) = ⟨200, .jobBody job, none⟩)
    ∧ ("job/" ++ j) ∉ (runWorker env j s pid).deletes
    ∧ ((runWorker env j s pid).deletes = [] ∨
       ∃ n, (runWorker env j s pid).deletes = cleanupKeys s n) := by
  have h1 : (method == "OPTIONS") = false := by simp [hm]
  have h2 : strFalsy (some jid) = false := by simp [strFalsy, hj]
  refine ⟨?_, ?_, ?_, runWorker_deletes_shape env j s pid⟩
  · rintro (ht | ht) <;> simp [reportStatusHandler, h1, h2, hfound, ht]
  · rintro (ht | ht) <;> simp [reportStatusHandler, h1, h2, hfound, ht]
  · rcases runWorker_deletes_shape env j s pid with h | ⟨n, h⟩
    · rw [h]
      exact List.not_mem_nil _
    · rw [h]
      exact jobKey_not_in_cleanup s h16 hhex j n

/-- C7: `checkRateLimit` increments the per-identity counter and returns
`allowed = (count ≤ ceiling)` and `remaining = max(0, ceiling − count)`; only
the call that observes `count = 1` sets the expiry, the counter never
decreases, and the (ceiling+1)-th request of a window — the 101st here — is
rejected. -/
theorem c7_rate_limit_behaviour :
    (∀ st : RLState,
        (checkRateLimit st).1.count = st.count + 1
        ∧ (checkRateLimit st).2.count = st.count + 1
        ∧ (checkRateLimit st).1.allowed = decide (st.count + 1 ≤ RATE_LIMIT_MAX_REQUESTS)
        ∧ (checkRateLimit st).1.remaining =
            max 0 ((RATE_LIMIT_MAX_REQUESTS : Int) - ((st.count + 1 : Nat) : Int))
        ∧ (checkRateLimit st).2.ttl =
            (if st.count + 1 = 1 then some RATE_LIMIT_WINDOW_SECONDS else st.ttl)
        ∧ st.count < (checkRateLimit st).2.count)
    ∧ (checkRateLimit (rlIter RATE_LIMIT_MAX_REQUESTS ⟨0, none⟩)).1.allowed = false := by
  constructor
  · intro st
    refine ⟨rfl, rfl, rfl, rfl, ?_, Nat.lt_succ_self _⟩
    show (if (st.count + 1 == 1) = true then some RATE_LIMIT_WINDOW_SECONDS else st.ttl) = _
    simp
  · decide

/-- C3 witness: an `error` record behind key `job/j1`, read with method GET,
and a worker run under the demo environment with a 16-hex session id. -/
theorem c3_terminal_cleanup_ownership_witness :
    ((errRec "boom").status = "complete" ∨ (errRec "boom").status = "error" →
       reportStatusHandler demoJobs "GET" (some "j1") =
         ⟨200, .jobBody (errRec "boom"), some ("job/" ++ "j1")⟩)
    ∧ ((errRec "boom").status = "queued" ∨ (errRec "boom").status = "processing" →
       reportStatusHandler demoJobs "GET" (some "j1") =
         ⟨200, .jobBody (errRec "boom"), none⟩)
    ∧ ("job/" ++ "j2") ∉ (runWorker demoEnv "j2" demoSid none).deletes
    ∧ ((runWorker demoEnv "j2" demoSid none).deletes = [] ∨
       ∃ n, (runWorker demoEnv "j2" demoSid none).deletes = cleanupKeys demoSid n) :=
  c3_terminal_cleanup_ownership demoJobs "GET" "j1" (errRec "boom")
    demoEnv "j2" demoSid none (by decide) (by decide) rfl (by decide) (by decide)

/-- C1 (amended): with the payment bypass off, for a reference whose intent
passes the immutable status/amount/currency checks and already carries the
prior-use marker, verification is rejected with reason `Payment already
used`, and the worker's run ends in the terminal
`error: Payment failed: Payment already used` record; conversely every
reference the verifier accepts passed all four checks, and re-verifying the
same reference against the updated payment state is rejected with
`Payment already used`. -/
theorem c1_payment_single_use (env : WorkerEnv) (p j s : String) (i : Intent)
    (hb : env.betaMode = false) (hp : p ≠ "") (hi : env.stripe p = some i)
    (hj : j ≠ "") (hs : s ≠ "") :
    (markerSet i = true → passesCoreChecks i = true →
       (verifyPayment env.betaMode env.stripe (some p)).1 =
         ⟨false, some "Payment already used"⟩
       ∧ (runWorker env j s (some p)).writes =
           [procRec env.tStart, errRec "Payment failed: Payment already used"])
    ∧ ((verifyPayment env.betaMode env.stripe (some p)).1.valid = true →
       markerSet i = false ∧ passesCoreChecks i = true
       ∧ (verifyPayment env.betaMode
            ((verifyPayment env.betaMode env.stripe (some p)).2) (some p)).1 =
           ⟨false, some "Payment already used"⟩) := by
  have hfalsy : strFalsy (some p) = false := by simp [strFalsy, hp]
  constructor
  · intro hmark hpass
    simp only [passesCoreChecks, Bool.and_eq_true, beq_iff_eq] at hpass
    obtain ⟨⟨hst, ham⟩, hcur⟩ := hpass
    have ham3 : i.amount = 200 ∨ i.amount = 500 ∨ i.amount = 1000 := by
      simpa using ham
    have hamneg : ¬(¬i.amount = 200 ∧ ¬i.amount = 500 ∧ ¬i.amount = 1000) := by
      tauto
    have hV : (verifyPayment env.betaMode env.stripe (some p)).1 =
        ⟨false, some "Payment already used"⟩ := by
      simp [verifyPayment, hb, hfalsy, hi, hst, hamneg, hcur, hmark]
    refine ⟨hV, ?_⟩
    have hjj : (j == "") = false := by simp [hj]
    have hss : (s == "") = false := by simp [hs]
    simp [runWorker, hjj, hss, hV]
  · intro hvalid
    have hbeta : (verifyPayment env.betaMode env.stripe (some p)) =
        (verifyPayment false env.stripe (some p)) := by rw [hb]
    rw [hbeta] at hvalid ⊢
    by_cases hst : i.status = "succeeded"
    case neg =>
      exfalso
      have : (verifyPayment false env.stripe (some p)).1.valid = false := by
        simp [verifyPayment, hfalsy, hi, hst]
      rw [this] at hvalid
      exact Bool.false_ne_true hvalid
    by_cases ham : i.amount = 200 ∨ i.amount = 500 ∨ i.amount = 1000
    case neg =>
      exfalso
      have hampos : ¬i.amount = 200 ∧ ¬i.amount = 500 ∧ ¬i.amount = 1000 := by
        tauto
      have : (verifyPayment false env.stripe (some p)).1.valid = false := by
        simp [verifyPayment, hfalsy, hi, hst, hampos.1, hampos.2.1, hampos.2.2]
      rw [this] at hvalid
      exact Bool.false_ne_true hvalid
    have hamneg : ¬(¬i.amount = 200 ∧ ¬i.amount = 500 ∧ ¬i.amount = 1000) := by
      tauto
    by_cases hcur : i.currency = "aud"
    case neg =>
      exfalso
      have : (verifyPayment false env.stripe (some p)).1.valid = false := by
        simp [verifyPayment, hfalsy, hi, hst, hamneg, hcur]
      rw [this] at hvalid
      exact Bool.false_ne_true hvalid
    by_cases hmark : markerSet i = true
    case pos =>
      exfalso
      have : (verifyPayment false env.stripe (some p)).1.valid = false := by
        simp [verifyPayment, hfalsy, hi, hst, hamneg, hcur, hmark]
      rw [this] at hvalid
      exact Bool.false_ne_true hvalid
    have hmark2 : markerSet i = false := Bool.eq_false_iff.mpr hmark
    have hpassC : passesCoreChecks i = true := by
      simp [passesCoreChecks, hst, hcur]
      simpa using ham
    refine ⟨hmark2, hpassC, ?_⟩
    have h2 : (verifyPayment false env.stripe (some p)).2 =
        fun k => if k == p then some (markUsed i) else env.stripe k := by
      simp [verifyPayment, hfalsy, hi, hst, hamneg, hcur, hmark2]
    rw [h2]
    have hmm : markerSet (markUsed i) = true := by
      simp [markerSet, markUsed, metaField, metaAssign]
    simp [verifyPayment, hb, hfalsy, markUsed, hst, hamneg, hcur, hmm,
          markerSet, metaField, metaAssign]

/-- C1 counterexample: a reference whose prior-use marker is set but whose
status is not `succeeded` is rejected with the status reason, not the
"already used" reason the claim states. -/
theorem c1_payment_single_use_counterexample :
    markerSet cexIntent = true
    ∧ (verifyPayment false demoStripe (some "pi_cex")).1 =
        ⟨false, some "Payment status: requires_payment_method"⟩
    ∧ (verifyPayment false demoStripe (some "pi_cex")).1.reason ≠
        some "Payment already used" := by
  refine ⟨by decide, by decide, by decide⟩

/-- C1 witness at the marked intent `pi_used` under `payEnv`. -/
theorem c1_payment_single_use_witness :
    (markerSet usedIntent = true → passesCoreChecks usedIntent = true →
       (verifyPayment payEnv.betaMode payEnv.stripe (some "pi_used")).1 =
         ⟨false, some "Payment already used"⟩
       ∧ (runWorker payEnv "j1" "s1" (some "pi_used")).writes =
           [procRec payEnv.tStart, errRec "Payment failed: Payment already used"])
    ∧ ((verifyPayment payEnv.betaMode payEnv.stripe (some "pi_used")).1.valid = true →
       markerSet usedIntent = false ∧ passesCoreChecks usedIntent = true
       ∧ (verifyPayment payEnv.betaMode
            ((verifyPayment payEnv.betaMode payEnv.stripe (some "pi_used")).2)
            (some "pi_used")).1 = ⟨false, some "Payment already used"⟩) :=
  c1_payment_single_use payEnv "pi_used" "j1" "s1" usedIntent
    rfl (by decide) rfl (by decide) (by decide)

/-- C4: once the worker has passed payment, session load and category
validation, fetching the session's `n` asset keys yields some list of `k`
assets (independent failures skipped); if `k = 0` the run ends with the
terminal `Screenshots expired` error and no generation call; if `k ≥ 1` the
generation collaborator is invoked with exactly those `k` assets (and
`k ≤ n`). -/
theorem c4_partial_asset_tolerance (env : WorkerEnv) (j s : String)
    (pid : Option String) (meta : SessionMeta)
    (hj : j ≠ "") (hs : s ≠ "")
    (hpay : (verifyPayment env.betaMode env.stripe pid).1.valid = true)
    (hmeta : env.meta = some meta)
    (hcat : VALID_CATEGORIES.contains meta.category = true) :
    (fetchScreenshots env.getShot meta.screenshotCount = [] →
       runWorker env j s pid =
         ⟨[procRec env.tStart, errRec "Screenshots expired — please re-upload."],
          none, []⟩)
    ∧ (∀ p, fetchScreenshots env.getShot meta.screenshotCount ≠ [] →
        selectPrompt env.prompts meta.category = some p →
        (runWorker env j s pid).llmCall =
          some (p ++ promptTail (mkReportId env.rand) env.today
                  (fetchScreenshots env.getShot meta.screenshotCount).length
                  meta.category,
                fetchScreenshots env.getShot meta.screenshotCount)
        ∧ (fetchScreenshots env.getShot meta.screenshotCount).length ≤
            meta.screenshotCount) := by
  have hjj : (j == "") = false := by simp [hj]
  have hss : (s == "") = false := by simp [hs]
  have hpv : (!(verifyPayment env.betaMode env.stripe pid).1.valid) = false := by
    rw [hpay]
    rfl
  have hmem : meta.category ∈ VALID_CATEGORIES := by simpa using hcat
  constructor
  · intro hempty
    have hie : (fetchScreenshots env.getShot meta.screenshotCount).isEmpty = true := by
      rw [hempty]
      rfl
    simp [runWorker, hjj, hss, hpv, hmeta, hmem, hie]
  · intro p hne hsel
    have hie : (fetchScreenshots env.getShot meta.screenshotCount).isEmpty = false := by
      cases hL : fetchScreenshots env.getShot meta.screenshotCount with
      | nil => exact absurd hL hne
      | cons a t => rfl
    constructor
    · simp [runWorker, hjj, hss, hpv, hmeta, hmem, hie, hsel]
    · have := List.length_filterMap_le
        (fun i => (env.getShot i).map fun q => (⟨q.1, mimeOrJpeg q.2⟩ : Screenshot))
        (List.range meta.screenshotCount)
      simpa [fetchScreenshots] using this

/-- C4 witness under the demo environment: one of two screenshots present. -/
theorem c4_partial_asset_tolerance_witness :
    (fetchScreenshots demoEnv.getShot (2 : Nat) = [] →
       runWorker demoEnv "j1" "s1" none =
         ⟨[procRec demoEnv.tStart, errRec "Screenshots expired — please re-upload."],
          none, []⟩)
    ∧ (∀ p, fetchScreenshots demoEnv.getShot (2 : Nat) ≠ [] →
        selectPrompt demoEnv.prompts "vehicle" = some p →
        (runWorker demoEnv "j1" "s1" none).llmCall =
          some (p ++ promptTail (mkReportId demoEnv.rand) demoEnv.today
                  (fetchScreenshots demoEnv.getShot (2 : Nat)).length "vehicle",
                fetchScreenshots demoEnv.getShot (2 : Nat))
        ∧ (fetchScreenshots demoEnv.getShot (2 : Nat)).length ≤ 2) :=
  c4_partial_asset_tolerance demoEnv "j1" "s1" none ⟨"vehicle", 2⟩
    (by decide) (by decide) rfl rfl (by decide)

/-- C5 (amended): a dispatch whose session metadata is absent gets the 410
`Session expired` answer with no job write and no background call; one whose
metadata exists but has passed its recorded expiry also gets a 410, with the
metadata deleted and still no job; one whose metadata exists and has not
expired gets the `queued` job write, the un-awaited background invocation
and the 202 `{jobId, status: 'processing'}` response. -/
theorem c5_dispatch_gating (env : DispatchEnv) (b : ReqBody) (sid : String)
    (hsid : b.sessionId = some sid) (hne : sid ≠ "") :
    (env.meta = none →
       dispatchHandler env "POST" (some b) =
         ⟨410, .errBody "Session expired"
            (some "Your screenshots have been automatically deleted (15-minute limit). Please upload again."),
          none, false, none⟩)
    ∧ (∀ m, env.meta = some m → jsDateLt m.expiresAt env.now = true →
        dispatchHandler env "POST" (some b) =
          ⟨410, .errBody "Session expired"
             (some "Your session has expired. Please upload again."),
           none, true, none⟩)
    ∧ (∀ m, env.meta = some m → jsDateLt m.expiresAt env.now = false →
        dispatchHandler env "POST" (some b) =
          ⟨202, .accepted (mintId env.uuid) "processing",
           some ("job/" ++ mintId env.uuid,
                 { status := "queued", queuedAt := some env.tQueued }),
           false, some ⟨mintId env.uuid, sid, b.paymentIntentId⟩⟩) := by
  have hf : strFalsy b.sessionId = false := by
    rw [hsid]
    simp [strFalsy, hne]
  refine ⟨?_, ?_, ?_⟩
  · intro hm
    simp [dispatchHandler, hf, hm]
  · intro m hm hexp
    simp [dispatchHandler, hf, hm, hexp]
  · intro m hm hexp
    have hf2 : strFalsy (some sid) = false := by simp [strFalsy, hne]
    simp [dispatchHandler, hf, hf2, hm, hexp, hsid]

/-- C5 counterexample: a session that exists (metadata present) but whose
recorded expiry has passed is answered 410 with no job created, where the
claim promises a 202 and a `queued` job write for every existing session. -/
theorem c5_dispatch_gating_counterexample :
    expiredDispatchEnv.meta.isSome = true
    ∧ (dispatchHandler expiredDispatchEnv "POST" (some demoBody)).statusCode = 410
    ∧ (dispatchHandler expiredDispatchEnv "POST" (some demoBody)).jobWrite = none
    ∧ (dispatchHandler expiredDispatchEnv "POST" (some demoBody)).bgCall = none :=
  ⟨by decide, by decide, by decide, by decide⟩

/-- C5 witness at a request body carrying the demo session id. -/
theorem c5_dispatch_gating_witness :
    (demoDispatchEnv.meta = none →
       dispatchHandler demoDispatchEnv "POST" (some demoBody) =
         ⟨410, .errBody "Session expired"
            (some "Your screenshots have been automatically deleted (15-minute limit). Please upload again."),
          none, false, none⟩)
    ∧ (∀ m, demoDispatchEnv.meta = some m →
        jsDateLt m.expiresAt demoDispatchEnv.now = true →
        dispatchHandler demoDispatchEnv "POST" (some demoBody) =
          ⟨410, .errBody "Session expired"
             (some "Your session has expired. Please upload again."),
           none, true, none⟩)
    ∧ (∀ m, demoDispatchEnv.meta = some m →
        jsDateLt m.expiresAt demoDispatchEnv.now = false →
        dispatchHandler demoDispatchEnv "POST" (some demoBody) =
          ⟨202, .accepted (mintId demoDispatchEnv.uuid) "processing",
           some ("job/" ++ mintId demoDispatchEnv.uuid,
                 { status := "queued", queuedAt := some demoDispatchEnv.tQueued }),
           false,
           some ⟨mintId demoDispatchEnv.uuid, demoSid, demoBody.paymentIntentId⟩⟩) :=
  c5_dispatch_gating demoDispatchEnv demoBody demoSid rfl (by decide)

/-- C6 (amended): normalization first strips fences and trims; when both a
document-start and a document-end marker are found the stored body is the
JS-substring cut between the start position and the end of the end marker —
which equals exactly the claimed substring whenever the start marker begins
at or before the end of the end marker (the bounds are exchanged otherwise);
when either marker is absent the fence-stripped text is stored unchanged. -/
theorem c6_output_normalization (raw : String) :
    (∀ a b, docStartIdx (stripFences raw) = some a →
       docEndIdx (stripFences raw) = some b →
       normalizeReport raw = (jsSubstringL (stripFences raw).toList a (b + 7)).asString
       ∧ (a ≤ b + 7 →
            normalizeReport raw =
              (((stripFences raw).toList.drop a).take (b + 7 - a)).asString))
    ∧ (docStartIdx (stripFences raw) = none → normalizeReport raw = stripFences raw)
    ∧ (docEndIdx (stripFences raw) = none → normalizeReport raw = stripFences raw) := by
  refine ⟨?_, ?_, ?_⟩
  · intro a b ha hb
    have hN : normalizeReport raw =
        (jsSubstringL (stripFences raw).toList a (b + 7)).asString := by
      simp [normalizeReport, ha, hb]
    refine ⟨hN, fun hle => ?_⟩
    rw [hN]
    unfold jsSubstringL
    rw [Nat.min_eq_left hle, Nat.max_eq_right hle]
  · intro h
    simp [normalizeReport, h]
  · intro h
    rcases hS : docStartIdx (stripFences raw) with _ | a
    · simp [normalizeReport, hS]
    · simp [normalizeReport, hS, h]

/-- C6 counterexample: on output whose only `<html` start lies after its last
`</html>`, the code's JS-substring semantics exchange the bounds and store
the text between the markers, while the claimed extraction is empty. -/
theorem c6_output_normalization_counterexample :
    normalizeReport "</html>x<html" = "x"
    ∧ specNormalizeReport "</html>x<html" = ""
    ∧ normalizeReport "</html>x<html" ≠ specNormalizeReport "</html>x<html" :=
  ⟨by decide, by decide, by decide⟩

/-- C8: the dispatcher's `queued` write records `queuedAt` from its clock
reading, the worker's `processing` and `complete` writes record `startedAt`
and `completedAt` from its two readings, and under a monotone clock
(queue time ≤ start time ≤ completion time) the recorded timestamps are
non-decreasing across the job's states. -/
theorem c8_timestamps_monotone (denv : DispatchEnv) (wenv : WorkerEnv) (b : ReqBody)
    (sid j s p : String) (pid : Option String) (m : DispatchMeta) (meta : SessionMeta)
    (hsid : b.sessionId = some sid) (hne : sid ≠ "")
    (hm : denv.meta = some m) (hexp : jsDateLt m.expiresAt denv.now = false)
    (hj : j ≠ "") (hs : s ≠ "")
    (hpay : (verifyPayment wenv.betaMode wenv.stripe pid).1.valid = true)
    (hmeta : wenv.meta = some meta)
    (hcat : VALID_CATEGORIES.contains meta.category = true)
    (hshots : fetchScreenshots wenv.getShot meta.screenshotCount ≠ [])
    (hprompt : selectPrompt wenv.prompts meta.category = some p)
    (hq : denv.tQueued ≤ wenv.tStart) (hc : wenv.tStart ≤ wenv.tComplete) :
    (dispatchHandler denv "POST" (some b)).jobWrite =
      some ("job/" ++ mintId denv.uuid,
            { status := "queued", queuedAt := some denv.tQueued })
    ∧ (runWorker wenv j s pid).writes =
        [procRec wenv.tStart,
         { status := "complete",
           completedAt := some wenv.tComplete,
           reportId := some (mkReportId wenv.rand),
           html := some (normalizeReport (joinTextBlocks wenv.llm)) }]
    ∧ denv.tQueued ≤ wenv.tStart ∧ wenv.tStart ≤ wenv.tComplete := by
  have hf : strFalsy b.sessionId = false := by
    rw [hsid]
    simp [strFalsy, hne]
  have hjj : (j == "") = false := by simp [hj]
  have hss : (s == "") = false := by simp [hs]
  have hpv : (!(verifyPayment wenv.betaMode wenv.stripe pid).1.valid) = false := by
    rw [hpay]
    rfl
  have hie : (fetchScreenshots wenv.getShot meta.screenshotCount).isEmpty = false := by
    cases hL : fetchScreenshots wenv.getShot meta.screenshotCount with
    | nil => exact absurd hL hshots
    | cons a t => rfl
  have hmem : meta.category ∈ VALID_CATEGORIES := by simpa using hcat
  refine ⟨?_, ?_, hq, hc⟩
  · simp [dispatchHandler, hf, hm, hexp]
  · simp [runWorker, hjj, hss, hpv, hmeta, hmem, hie, hprompt]

/-- C8 witness: queue at 6, start at 10, complete at 20. -/
theorem c8_timestamps_monotone_witness :
    (dispatchHandler demoDispatchEnv "POST" (some demoBody)).jobWrite =
      some ("job/" ++ mintId demoDispatchEnv.uuid,
            { status := "queued", queuedAt := some demoDispatchEnv.tQueued })
    ∧ (runWorker demoEnv "j1" "s1" none).writes =
        [procRec demoEnv.tStart,
         { status := "complete",
           completedAt := some demoEnv.tComplete,
           reportId := some (mkReportId demoEnv.rand),
           html := some (normalizeReport (joinTextBlocks demoEnv.llm)) }]
    ∧ demoDispatchEnv.tQueued ≤ demoEnv.tStart ∧ demoEnv.tStart ≤ demoEnv.tComplete :=
  c8_timestamps_monotone demoDispatchEnv demoEnv demoBody demoSid "j1" "s1" "PROMPT"
    none ⟨none⟩ ⟨"vehicle", 2⟩ rfl (by decide) rfl rfl (by decide) (by decide)
    rfl rfl (by decide) (by decide) (by decide) (by decide) (by decide)

/-- C9 (amended): every report id is `LL-` followed by at most five
characters, each an uppercase letter or digit; it has exactly five whenever
the random draw's base-36 fraction supplies at least five digits, but a
short fraction (e.g. `(0.25).toString(36) = "0.9"`) yields fewer. -/
theorem c9_report_id_shape (s : String) (h : isRandom36 s = true) :
    ∃ tail : List Char,
      (mkReportId s).toList = 'L' :: 'L' :: '-' :: tail
      ∧ tail.all isUpperAlnum = true
      ∧ tail.length ≤ 5
      ∧ (5 ≤ s.toList.length - 2 → tail.length = 5) := by
  have hcases : s.toList = ['0'] ∨
      ∃ ds, s.toList = '0' :: '.' :: ds ∧ ds ≠ [] ∧ ds.all isB36Digit = true := by
    unfold isRandom36 at h
    split at h
    · left
      assumption
    · right
      rename_i ds heq
      rw [Bool.and_eq_true] at h
      exact ⟨ds, heq, of_decide_eq_true h.1, h.2⟩
    · exact absurd h (by simp)
  rcases hcases with h0 | ⟨ds, hds, hne2, hall⟩
  · refine ⟨[], ?_, rfl, by decide, ?_⟩
    · unfold mkReportId
      rw [h0]
      decide
    · intro h5
      rw [h0] at h5
      simp at h5
  · refine ⟨(ds.take 5).map jsUpperChar, ?_, ?_, ?_, ?_⟩
    · unfold mkReportId
      rw [hds]
      show ("LL-" ++ _).data = _
      rw [String.data_append]
      rfl
    · refine List.all_eq_true.mpr fun c hc => ?_
      obtain ⟨d, hd, hmap⟩ := List.mem_map.mp hc
      rw [← hmap]
      exact isUpperAlnum_jsUpperChar d
        (List.all_eq_true.mp hall d (List.take_subset _ _ hd))
    · rw [List.length_map, List.length_take]
      omega
    · intro h5
      rw [hds] at h5
      simp at h5
      rw [List.length_map, List.length_take]
      omega

/-- C9 counterexample: with the random draw `"0.9"` — a legitimate
`Math.random().toString(36)` output, since `(0.25).toString(36) = "0.9"` —
a job completes with reportId `LL-9`, which does not match
`LL-[A-Z0-9]{5}`. -/
theorem c9_report_id_shape_counterexample :
    isRandom36 "0.9" = true
    ∧ (runWorker shortRandEnv "j1" "s1" none).writes =
        [procRec 10,
         { status := "complete", completedAt := some 20, reportId := some "LL-9",
           html := some "<!DOCTYPE html>ok</html>" }]
    ∧ specLL5 "LL-9" = false :=
  ⟨by decide, by decide, by decide⟩

/-- C9 witness at the draw `"0.abcde"`. -/
theorem c9_report_id_shape_witness :
    ∃ tail : List Char,
      (mkReportId "0.abcde").toList = 'L' :: 'L' :: '-' :: tail
      ∧ tail.all isUpperAlnum = true
      ∧ tail.length ≤ 5
      ∧ (5 ≤ ("0.abcde" : String).toList.length - 2 → tail.length = 5) :=
  c9_report_id_shape "0.abcde" (by decide)

/-- C10: an id minted from a canonical UUID (dashes removed, first 16 kept)
is exactly 16 lowercase-hex characters, and the `job/` prefix keeps every
job key distinct from every session metadata or screenshot key. -/
theorem c10_minted_id_shape (u v : String) (i : Nat)
    (hu : IsCanonicalUUID u) (hv : IsCanonicalUUID v) :
    (mintId u).toList.length = 16
    ∧ (mintId u).toList.all isHexLower = true
    ∧ (mintId v).toList.length = 16
    ∧ (mintId v).toList.all isHexLower = true
    ∧ ("job/" ++ mintId v) ≠ metaKey (mintId u)
    ∧ ("job/" ++ mintId v) ≠ shotKey (mintId u) i := by
  obtain ⟨h16, hhex⟩ := mintId_spec u hu
  obtain ⟨h16v, hhexv⟩ := mintId_spec v hv
  exact ⟨h16, hhex, h16v, hhexv,
         jobKey_ne_metaKey _ h16 hhex _,
         jobKey_ne_shotKey _ h16 hhex _ i⟩

/-- C10 witness at two concrete UUIDs and screenshot index 3. -/
theorem c10_minted_id_shape_witness :
    (mintId demoUuid).toList.length = 16
    ∧ (mintId demoUuid).toList.all isHexLower = true
    ∧ (mintId demoUuid2).toList.length = 16
    ∧ (mintId demoUuid2).toList.all isHexLower = true
    ∧ ("job/" ++ mintId demoUuid2) ≠ metaKey (mintId demoUuid)
    ∧ ("job/" ++ mintId demoUuid2) ≠ shotKey (mintId demoUuid) 3 :=
  c10_minted_id_shape demoUuid demoUuid2 3
    ⟨"123e4567".toList, "e89b".toList, "42d3".toList, "a456".toList,
     "426614174000".toList, by decide⟩
    ⟨"00112233".toList, "4455".toList, "4677".toList, "8899".toList,
     "aabbccddeeff".toList, by decide⟩

end LL
